import Mathlib

/-!
# StepMania: scripted USB device session and the instructions screen

Shallow embedding of

* `src/arch/LuaDriver/LuaAPIHandle_USB.cpp` : the session class
  `LuaAPIHandle_USB` and its scripting binding `LunaLuaAPIHandle_USB`;
* `stepmania/src/ScreenInstructions.cpp` : the constructor of
  `ScreenInstructions` and `HandleScreenMessage`.

The native USB library is outside the program.  Every method of the model
receives the answers of the native calls it makes as an explicit argument and
returns, next to its C++ result and the new session state, the list of native
calls it made, in order.
-/

namespace Stepmania

/-! ## Status codes of the native library (values of `libusb.h`) -/

def LIBUSB_SUCCESS : Int := 0
def LIBUSB_ERROR_IO : Int := -1
def LIBUSB_ERROR_INVALID_PARAM : Int := -2
def LIBUSB_ERROR_ACCESS : Int := -3
def LIBUSB_ERROR_NO_DEVICE : Int := -4
def LIBUSB_ERROR_NOT_FOUND : Int := -5
def LIBUSB_ERROR_BUSY : Int := -6
def LIBUSB_ERROR_TIMEOUT : Int := -7
def LIBUSB_ERROR_OVERFLOW : Int := -8
def LIBUSB_ERROR_PIPE : Int := -9
def LIBUSB_ERROR_INTERRUPTED : Int := -10
def LIBUSB_ERROR_NO_MEM : Int := -11
def LIBUSB_ERROR_NOT_SUPPORTED : Int := -12
def LIBUSB_ERROR_OTHER : Int := -99

/-- Direction bit of an endpoint address or request type (`libusb.h`). -/
def LIBUSB_ENDPOINT_IN : Nat := 0x80

/-- Conversion of a C `int` to `uint8_t`. -/
def toUInt8 (n : Int) : Nat := (n % 256).toNat

/-- Conversion of a C `int` or `size_t` to `uint16_t`. -/
def toUInt16 (n : Int) : Nat := (n % 65536).toNat

/-! ## The session -/

/-- One entry of the list returned by `libusb_get_device_list`, together with
the answers the native library gives for it: the return code of
`libusb_get_device_descriptor` and the two identifiers of the descriptor it
fills in, the return code of `libusb_open` and the (non-null) handle it stores
through its out-pointer when it succeeds. -/
structure Device where
  descRet : Int
  idVendor : Nat
  idProduct : Nat
  openRet : Int
  openHandle : Nat
deriving DecidableEq, Repr

/-- Native calls, recorded in the order they are made. -/
inductive NativeCall where
  | libusb_get_device_list
  | libusb_get_device_descriptor (dev : Device)
  | libusb_open (dev : Device)
  | libusb_free_device_list
  | libusb_reset_device (handle : Nat)
  | libusb_close (handle : Nat)
  | libusb_kernel_driver_active (interface : Int)
  | libusb_detach_kernel_driver (interface : Int)
  | libusb_claim_interface (interface : Int)
  | libusb_release_interface (interface : Int)
  | libusb_attach_kernel_driver (interface : Int)
deriving DecidableEq, Repr

/-- Data members of `LuaAPIHandle_USB`: `m_pHandle` (`none` is `NULL`),
`m_iError`, and `m_DetachedInterfaces`, a `set<uint8_t>`. -/
structure LuaAPIHandle_USB where
  m_pHandle : Option Nat
  m_iError : Int
  m_DetachedInterfaces : Finset Nat
deriving DecidableEq

/-- Result of a method: the C++ return value, the session afterwards and the
native calls made. -/
structure Result (α : Type) where
  ret : α
  self : LuaAPIHandle_USB
  calls : List NativeCall

/-- Session after a successful constructor: `m_iError` holds the result of
`libusb_init`, `m_pHandle` is `NULL` and no interface is recorded. -/
def LuaAPIHandle_USB.new : LuaAPIHandle_USB :=
  { m_pHandle := none, m_iError := LIBUSB_SUCCESS, m_DetachedInterfaces := ∅ }

/-- Body of the `for` loop of `Open` over the remaining devices: `continue`
on an unreadable descriptor and on a mismatch, `libusb_open` on a match,
`break` when that open fails. -/
def OpenLoop (iVendorID iProductID : Nat) :
    List Device → LuaAPIHandle_USB → List NativeCall → LuaAPIHandle_USB × List NativeCall
  | [], s, tr => (s, tr)
  | dev :: rest, s, tr =>
    let tr1 := tr ++ [NativeCall.libusb_get_device_descriptor dev]
    if dev.descRet ≠ LIBUSB_SUCCESS then
      OpenLoop iVendorID iProductID rest s tr1
    else if dev.idVendor ≠ iVendorID ∨ dev.idProduct ≠ iProductID then
      OpenLoop iVendorID iProductID rest s tr1
    else
      let s1 : LuaAPIHandle_USB :=
        { s with
          m_iError := dev.openRet
          m_pHandle := if dev.openRet = LIBUSB_SUCCESS then some dev.openHandle else s.m_pHandle }
      let tr2 := tr1 ++ [NativeCall.libusb_open dev]
      if s1.m_iError ≠ LIBUSB_SUCCESS then
        (s1, tr2)
      else
        OpenLoop iVendorID iProductID rest s1 tr2

/-- `LuaAPIHandle_USB::Open`.  `deviceList` is the answer of
`libusb_get_device_list`: `none` for a negative count. -/
def Open (s : LuaAPIHandle_USB) (iVendorID iProductID : Nat)
    (deviceList : Option (List Device)) : Result Bool :=
  match deviceList with
  | none =>
    { ret := false
      self := { s with m_iError := LIBUSB_ERROR_NO_MEM }
      calls := [NativeCall.libusb_get_device_list] }
  | some ppList =>
    let s0 : LuaAPIHandle_USB := { s with m_iError := LIBUSB_ERROR_NO_DEVICE }
    let r := OpenLoop iVendorID iProductID ppList s0 [NativeCall.libusb_get_device_list]
    { ret := r.1.m_pHandle.isSome
      self := r.1
      calls := r.2 ++ [NativeCall.libusb_free_device_list] }

/-- `LuaAPIHandle_USB::IsOpen`. -/
def IsOpen (s : LuaAPIHandle_USB) : Bool := s.m_pHandle.isSome

/-- `LuaAPIHandle_USB::Close`. -/
def Close (s : LuaAPIHandle_USB) : Result Unit :=
  match s.m_pHandle with
  | none => { ret := (), self := s, calls := [] }
  | some h =>
    { ret := ()
      self := s
      calls := [NativeCall.libusb_reset_device h, NativeCall.libusb_close h] }

/-- Answers of the native calls of `ClaimInterface`. -/
structure ClaimEnv where
  kernelDriverActive : Int
  detachRet : Int
  claimRet : Int
deriving DecidableEq, Repr

/-- `LuaAPIHandle_USB::ClaimInterface`. -/
def ClaimInterface (s : LuaAPIHandle_USB) (interface : Int) (env : ClaimEnv) : Result Bool :=
  if env.kernelDriverActive ≠ 0 then
    if env.detachRet ≠ LIBUSB_SUCCESS then
      { ret := false
        self := s
        calls := [NativeCall.libusb_kernel_driver_active interface,
                  NativeCall.libusb_detach_kernel_driver interface] }
    else
      let s1 : LuaAPIHandle_USB :=
        { s with m_DetachedInterfaces := insert (toUInt8 interface) s.m_DetachedInterfaces }
      let s2 : LuaAPIHandle_USB := { s1 with m_iError := env.claimRet }
      { ret := decide (s2.m_iError = LIBUSB_SUCCESS)
        self := s2
        calls := [NativeCall.libusb_kernel_driver_active interface,
                  NativeCall.libusb_detach_kernel_driver interface,
                  NativeCall.libusb_claim_interface interface] }
  else
    let s2 : LuaAPIHandle_USB := { s with m_iError := env.claimRet }
    { ret := decide (s2.m_iError = LIBUSB_SUCCESS)
      self := s2
      calls := [NativeCall.libusb_kernel_driver_active interface,
                NativeCall.libusb_claim_interface interface] }

/-- Answers of the native calls of `ReleaseInterface`. -/
structure ReleaseEnv where
  releaseRet : Int
  attachRet : Int
deriving DecidableEq, Repr

/-- `LuaAPIHandle_USB::ReleaseInterface`. -/
def ReleaseInterface (s : LuaAPIHandle_USB) (interface : Int) (env : ReleaseEnv) : Result Bool :=
  let s1 : LuaAPIHandle_USB := { s with m_iError := env.releaseRet }
  if s1.m_iError = LIBUSB_SUCCESS then
    if toUInt8 interface ∉ s1.m_DetachedInterfaces then
      { ret := true, self := s1, calls := [NativeCall.libusb_release_interface interface] }
    else
      let s2 : LuaAPIHandle_USB :=
        { s1 with m_DetachedInterfaces := s1.m_DetachedInterfaces.erase (toUInt8 interface) }
      { ret := decide (s2.m_iError = LIBUSB_SUCCESS)
        self := s2
        calls := [NativeCall.libusb_release_interface interface,
                  NativeCall.libusb_attach_kernel_driver interface] }
  else
    { ret := decide (s1.m_iError = LIBUSB_SUCCESS)
      self := s1
      calls := [NativeCall.libusb_release_interface interface] }

/-- `LuaAPIHandle_USB::GetErrorStr`: the `switch` over the status code. -/
def GetErrorStr (error : Int) : String :=
  if error = LIBUSB_SUCCESS then "Success"
  else if error = LIBUSB_ERROR_IO then "Input/output error"
  else if error = LIBUSB_ERROR_INVALID_PARAM then "Invalid parameter"
  else if error = LIBUSB_ERROR_ACCESS then "Access denied"
  else if error = LIBUSB_ERROR_NO_DEVICE then "No such device"
  else if error = LIBUSB_ERROR_NOT_FOUND then "Entity not found"
  else if error = LIBUSB_ERROR_BUSY then "Resource busy"
  else if error = LIBUSB_ERROR_TIMEOUT then "Operation timed out"
  else if error = LIBUSB_ERROR_OVERFLOW then "Overflow"
  else if error = LIBUSB_ERROR_PIPE then "Pipe error"
  else if error = LIBUSB_ERROR_INTERRUPTED then "System call interrupted"
  else if error = LIBUSB_ERROR_NO_MEM then "Insufficient memory"
  else if error = LIBUSB_ERROR_NOT_SUPPORTED then "Operation not supported"
  else if error = LIBUSB_ERROR_OTHER then "Unspecified error"
  else "(nil)"

/-- The status codes that have a `case` label in `GetErrorStr`. -/
def knownErrorCodes : List Int :=
  [LIBUSB_SUCCESS, LIBUSB_ERROR_IO, LIBUSB_ERROR_INVALID_PARAM, LIBUSB_ERROR_ACCESS,
   LIBUSB_ERROR_NO_DEVICE, LIBUSB_ERROR_NOT_FOUND, LIBUSB_ERROR_BUSY, LIBUSB_ERROR_TIMEOUT,
   LIBUSB_ERROR_OVERFLOW, LIBUSB_ERROR_PIPE, LIBUSB_ERROR_INTERRUPTED, LIBUSB_ERROR_NO_MEM,
   LIBUSB_ERROR_NOT_SUPPORTED, LIBUSB_ERROR_OTHER]

/-! ## The scripting binding `LunaLuaAPIHandle_USB` -/

def CTL_TRANSFER_BUFFER_SIZE : Nat := 64

/-- Answers of one native transfer call: its return value, the value left in
`transferred` (bulk and interrupt transfers) and the contents of the data
buffer after the call. -/
structure TransferEnv where
  ret : Int
  transferred : Int
  data : List Nat
deriving DecidableEq, Repr

/-- The two values a transfer method pushes for the script (the byte count
and the data string, `none` for `nil`) and the session afterwards. -/
structure Pushed where
  count : Int
  data : Option (List Nat)
  self : LuaAPIHandle_USB

/-- Test `(x & LIBUSB_ENDPOINT_IN)` on a `uint8_t`. -/
def isEndpointIn (x : Nat) : Bool := decide (x &&& LIBUSB_ENDPOINT_IN ≠ 0)

/-- `LunaLuaAPIHandle_USB::BulkTransfer`.  `arg1` and `arg3` are the integer
arguments, `arg2` the bytes of the second argument when it converts to a
string.  `lua_pushlstring( L, data, datalen )` pushes the first `datalen`
bytes of the buffer. -/
def Luna_BulkTransfer (p : LuaAPIHandle_USB) (arg1 : Int) (arg2 : Option (List Nat))
    (_arg3 : Int) (env : TransferEnv) : Pushed :=
  let endpoint := toUInt8 arg1
  let bUsingBuffer := isEndpointIn endpoint
  let datalen : Nat := if bUsingBuffer then 0x40 else (arg2.map List.length).getD 0
  let transferred := env.transferred
  { count := transferred
    data := if bUsingBuffer then some (env.data.take datalen) else none
    self := p }

/-- `LunaLuaAPIHandle_USB::InterruptTransfer`. -/
def Luna_InterruptTransfer (p : LuaAPIHandle_USB) (arg1 : Int) (arg2 : Option (List Nat))
    (_arg3 : Int) (env : TransferEnv) : Pushed :=
  let endpoint := toUInt8 arg1
  let bUsingBuffer := isEndpointIn endpoint
  let datalen : Nat := if bUsingBuffer then 0x08 else (arg2.map List.length).getD 0
  let transferred := env.transferred
  { count := transferred
    data := if bUsingBuffer then some (env.data.take datalen) else none
    self := p }

/-- `LunaLuaAPIHandle_USB::ControlTransfer`.  `arg5` holds the bytes of the
fifth argument when it is a string; for an OUT transfer without one `SArg(5)`
raises a script error (`none`).  `lua_pushlstring( L, data, ret )` pushes the
first `ret` bytes of the buffer. -/
def Luna_ControlTransfer (p : LuaAPIHandle_USB) (arg1 _arg2 _arg3 _arg4 : Int)
    (arg5 : Option (List Nat)) (_arg6 : Int) (env : TransferEnv) : Option Pushed :=
  let bmReqType := toUInt8 arg1
  let bUsingBuffer := isEndpointIn bmReqType
  if !bUsingBuffer && arg5.isNone then
    none
  else
    let ret := env.ret
    let p1 : LuaAPIHandle_USB := if ret < 0 then { p with m_iError := ret } else p
    some
      { count := ret
        data := if bUsingBuffer && decide (ret > 0) then some (env.data.take ret.toNat) else none
        self := p1 }

/-- The static member functions the binding class defines, in source order. -/
def LunaLuaAPIHandle_USB_defined : List String :=
  ["Open", "GetDeviceDescriptor", "GetConfiguration", "SetConfiguration", "ClaimInterface",
   "ReleaseInterface", "BulkTransfer", "InterruptTransfer", "ControlTransfer"]

/-- The method table built by the constructor of the binding class: one entry
per `ADD_METHOD` line. -/
def LunaLuaAPIHandle_USB_methods : List String :=
  ["Open", "GetDeviceDescriptor", "GetConfiguration", "SetConfiguration", "ClaimInterface",
   "ReleaseInterface", "ControlTransfer", "InterruptTransfer"]

/-! ## `ScreenInstructions` -/

/-- Play modes named in `ScreenInstructions.cpp`; `PLAY_MODE_OTHER` stands for
any further enumerator of `GameConstantsAndTypes.h`. -/
inductive PlayMode where
  | PLAY_MODE_ARCADE
  | PLAY_MODE_NONSTOP
  | PLAY_MODE_ONI
  | PLAY_MODE_ENDLESS
  | PLAY_MODE_BATTLE
  | PLAY_MODE_INVALID
  | PLAY_MODE_OTHER (n : Nat)
deriving DecidableEq, Repr

/-- Screen messages named in `ScreenInstructions.cpp`; `SM_Other` stands for
any further message. -/
inductive ScreenMessage where
  | SM_MenuTimer
  | SM_GoToPrevScreen
  | SM_GoToNextScreen
  | SM_Other (n : Nat)
deriving DecidableEq, Repr

/-- Constants of `GameConstantsAndTypes.h` used by the constructor, as values
of the `Difficulty` enumeration. -/
structure DifficultyConsts where
  NUM_DIFFICULTIES : Int
  DIFFICULTY_EASY : Int
deriving DecidableEq, Repr

/-- Theme metrics read by the screen. -/
structure Theme where
  NEXT_SCREEN_ARCADE : String
  NEXT_SCREEN_ONI : String
  NEXT_SCREEN_BATTLE : String
deriving DecidableEq, Repr

/-- State of player `p` in `GAMESTATE`: `IsPlayerEnabled(p)` and
`m_PreferredDifficulty[p]`. -/
structure PlayerState where
  enabled : Bool
  m_PreferredDifficulty : Int
deriving DecidableEq, Repr

/-- What the constructor reads: `PREFSMAN->m_bInstructions`,
`GAMESTATE->m_PlayMode` and one entry per player `0 .. NUM_PLAYERS-1`. -/
structure GameState where
  m_bInstructions : Bool
  m_PlayMode : PlayMode
  players : List PlayerState
deriving DecidableEq, Repr

/-- Observable steps of the screen code, in order. -/
inductive Effect where
  | Dispatch (sm : ScreenMessage)
  | SetNewScreen (name : String)
  | AssertFailed
  | MenuStartTransitioning (sm : ScreenMessage)
  | SpriteStopTweening
  | SpriteBeginTweening
  | SpriteSetTweenX
  | MenuLoad
  | AddChildMenu
  | Throw
  | SpriteLoad (mode : PlayMode)
  | SpriteSetXY
  | AddChildSprite
  | SpriteSetX
  | PlayMusic
deriving DecidableEq, Repr

/-- `ScreenInstructions::MenuStart`. -/
def MenuStart : List Effect :=
  [Effect.MenuStartTransitioning ScreenMessage.SM_GoToNextScreen, Effect.SpriteStopTweening,
   Effect.SpriteBeginTweening, Effect.SpriteSetTweenX]

/-- `ScreenInstructions::HandleScreenMessage`; the `default:` of the inner
`switch` is `ASSERT(0)`. -/
def HandleScreenMessage (theme : Theme) (gs : GameState) (SM : ScreenMessage) : List Effect :=
  match SM with
  | ScreenMessage.SM_MenuTimer => MenuStart
  | ScreenMessage.SM_GoToPrevScreen => [Effect.SetNewScreen "ScreenTitleMenu"]
  | ScreenMessage.SM_GoToNextScreen =>
    match gs.m_PlayMode with
    | PlayMode.PLAY_MODE_ARCADE => [Effect.SetNewScreen theme.NEXT_SCREEN_ARCADE]
    | PlayMode.PLAY_MODE_NONSTOP => [Effect.SetNewScreen theme.NEXT_SCREEN_ONI]
    | PlayMode.PLAY_MODE_ONI => [Effect.SetNewScreen theme.NEXT_SCREEN_ONI]
    | PlayMode.PLAY_MODE_ENDLESS => [Effect.SetNewScreen theme.NEXT_SCREEN_ONI]
    | PlayMode.PLAY_MODE_BATTLE => [Effect.SetNewScreen theme.NEXT_SCREEN_BATTLE]
    | _ => [Effect.AssertFailed]
  | _ => []

/-- The `for` loop of the constructor: players that are not enabled are
passed over, the others lower the running minimum. -/
def easiestLoop : List PlayerState → Int → Int
  | [], easiestDifficulty => easiestDifficulty
  | p :: rest, easiestDifficulty =>
    if !p.enabled then easiestLoop rest easiestDifficulty
    else easiestLoop rest (min easiestDifficulty p.m_PreferredDifficulty)

/-- Value of `easiestDifficulty` after the loop, started at
`NUM_DIFFICULTIES-1`. -/
def easiestDifficulty (c : DifficultyConsts) (gs : GameState) : Int :=
  easiestLoop gs.players (c.NUM_DIFFICULTIES - 1)

/-- Rest of the constructor once the screen is not passed over. -/
def constructorBody (gs : GameState) : List Effect :=
  [Effect.MenuLoad, Effect.AddChildMenu] ++
    (if gs.m_PlayMode ≠ PlayMode.PLAY_MODE_INVALID then
      [Effect.SpriteLoad gs.m_PlayMode, Effect.SpriteSetXY, Effect.AddChildSprite,
       Effect.SpriteSetX, Effect.SpriteBeginTweening, Effect.SpriteBeginTweening,
       Effect.SpriteSetTweenX, Effect.PlayMusic]
    else [Effect.Throw])

/-- `ScreenInstructions::ScreenInstructions`. -/
def ScreenInstructions (c : DifficultyConsts) (theme : Theme) (gs : GameState) : List Effect :=
  if !gs.m_bInstructions then
    Effect.Dispatch ScreenMessage.SM_GoToNextScreen ::
      HandleScreenMessage theme gs ScreenMessage.SM_GoToNextScreen
  else if gs.m_PlayMode = PlayMode.PLAY_MODE_ARCADE then
    if easiestDifficulty c gs > c.DIFFICULTY_EASY then
      Effect.Dispatch ScreenMessage.SM_GoToNextScreen ::
        HandleScreenMessage theme gs ScreenMessage.SM_GoToNextScreen
    else constructorBody gs
  else constructorBody gs

/-- The constructor passed the screen over: it dispatched `SM_GoToNextScreen`
first and reached neither the menu load, nor the sprite load, nor the music. -/
def skipped (effects : List Effect) : Bool :=
  effects.head? == some (Effect.Dispatch ScreenMessage.SM_GoToNextScreen) &&
  !effects.contains Effect.MenuLoad &&
  !effects.any (fun e => match e with | Effect.SpriteLoad _ => true | _ => false) &&
  !effects.contains Effect.PlayMusic

/-- The play modes for which `HandleScreenMessage( SM_GoToNextScreen )` sets a
new screen. -/
def hasNextScreen (m : PlayMode) : Bool :=
  match m with
  | PlayMode.PLAY_MODE_ARCADE => true
  | PlayMode.PLAY_MODE_NONSTOP => true
  | PlayMode.PLAY_MODE_ONI => true
  | PlayMode.PLAY_MODE_ENDLESS => true
  | PlayMode.PLAY_MODE_BATTLE => true
  | _ => false

/-! ## Vocabulary of the properties -/

/-- The descriptor of `d` was read and carries both identifiers. -/
def matchesIds (iVendorID iProductID : Nat) (d : Device) : Bool :=
  decide (d.descRet = LIBUSB_SUCCESS) && decide (d.idVendor = iVendorID) &&
    decide (d.idProduct = iProductID)

/-- Number of `libusb_open` calls in a list of native calls. -/
def openCount (calls : List NativeCall) : Nat :=
  calls.countP (fun c => match c with | NativeCall.libusb_open _ => true | _ => false)

/-- Number of `libusb_attach_kernel_driver` calls in a list of native calls. -/
def reattachCount (calls : List NativeCall) : Nat :=
  calls.countP (fun c => match c with | NativeCall.libusb_attach_kernel_driver _ => true | _ => false)

/-- Number of `libusb_claim_interface` calls in a list of native calls. -/
def claimCount (calls : List NativeCall) : Nat :=
  calls.countP (fun c => match c with | NativeCall.libusb_claim_interface _ => true | _ => false)

/-- The claim detached a kernel driver: one was bound and the detach call
reported success. -/
def detachOccurred (env : ClaimEnv) : Bool :=
  decide (env.kernelDriverActive ≠ 0) && decide (env.detachRet = LIBUSB_SUCCESS)

/-! ## Properties of `Open`, `IsOpen` and `Close` -/

theorem OpenLoop_no_match (iVendorID iProductID : Nat) (devs : List Device)
    (hno : ∀ d ∈ devs, matchesIds iVendorID iProductID d = false)
    (s : LuaAPIHandle_USB) (tr : List NativeCall) :
    (OpenLoop iVendorID iProductID devs s tr).1 = s ∧
      openCount (OpenLoop iVendorID iProductID devs s tr).2 = openCount tr := by
  induction devs generalizing tr with
  | nil => simp [OpenLoop]
  | cons d rest ih =>
    have hd := hno d (List.mem_cons_self _ _)
    have hrest : ∀ e ∈ rest, matchesIds iVendorID iProductID e = false :=
      fun e he => hno e (List.mem_cons_of_mem _ he)
    have hcount : openCount (tr ++ [NativeCall.libusb_get_device_descriptor d]) = openCount tr := by
      simp [openCount]
    by_cases h1 : d.descRet = LIBUSB_SUCCESS
    · by_cases h2 : d.idVendor ≠ iVendorID ∨ d.idProduct ≠ iProductID
      · rw [OpenLoop]
        simp only [h1, ne_eq, not_true_eq_false, if_false, h2, if_true]
        rw [← hcount]
        exact ih hrest _
      · exfalso
        have h3 : d.idVendor = iVendorID ∧ d.idProduct = iProductID := by
          constructor
          · by_contra hc; exact h2 (Or.inl hc)
          · by_contra hc; exact h2 (Or.inr hc)
        simp [matchesIds, h1, h3.1, h3.2] at hd
    · rw [OpenLoop]
      simp only [ne_eq, h1, not_false_eq_true, if_true]
      rw [← hcount]
      exact ih hrest _

/-- C1: when no device with a readable descriptor carries both identifiers,
`Open` on a session that is not open returns false, leaves `IsOpen` false,
records `LIBUSB_ERROR_NO_DEVICE` ("No such device") and opens nothing. -/
theorem Open_no_matching_device (s : LuaAPIHandle_USB) (iVendorID iProductID : Nat)
    (devs : List Device) (hclosed : IsOpen s = false)
    (hno : ∀ d ∈ devs, matchesIds iVendorID iProductID d = false) :
    (Open s iVendorID iProductID (some devs)).ret = false ∧
    IsOpen (Open s iVendorID iProductID (some devs)).self = false ∧
    (Open s iVendorID iProductID (some devs)).self.m_iError = LIBUSB_ERROR_NO_DEVICE ∧
    GetErrorStr (Open s iVendorID iProductID (some devs)).self.m_iError = "No such device" ∧
    openCount (Open s iVendorID iProductID (some devs)).calls = 0 := by
  have h := OpenLoop_no_match iVendorID iProductID devs hno
    { s with m_iError := LIBUSB_ERROR_NO_DEVICE } [NativeCall.libusb_get_device_list]
  have hc : s.m_pHandle.isSome = false := hclosed
  have e : (Open s iVendorID iProductID (some devs)).self =
      { s with m_iError := LIBUSB_ERROR_NO_DEVICE } := h.1
  have er : (Open s iVendorID iProductID (some devs)).ret =
      (Open s iVendorID iProductID (some devs)).self.m_pHandle.isSome := rfl
  have ec : (Open s iVendorID iProductID (some devs)).calls =
      (OpenLoop iVendorID iProductID devs { s with m_iError := LIBUSB_ERROR_NO_DEVICE }
        [NativeCall.libusb_get_device_list]).2 ++ [NativeCall.libusb_free_device_list] := rfl
  refine ⟨?_, ?_, ?_, ?_, ?_⟩
  · rw [er, e]; exact hc
  · rw [IsOpen, e]; exact hc
  · rw [e]
  · rw [e]
    show GetErrorStr LIBUSB_ERROR_NO_DEVICE = "No such device"
    decide
  · have h2 := h.2
    rw [ec]
    simp only [openCount, List.countP_append] at h2 ⊢
    rw [h2]
    decide

/-- Instance of C1: a list with an unreadable matching device and a readable
device of another vendor. -/
theorem Open_no_matching_device_witness :
    (Open LuaAPIHandle_USB.new 0x1234 0x5678
      (some [⟨LIBUSB_ERROR_ACCESS, 0x1234, 0x5678, 0, 1⟩, ⟨0, 0x046d, 0x5678, 0, 2⟩])).ret = false ∧
    IsOpen (Open LuaAPIHandle_USB.new 0x1234 0x5678
      (some [⟨LIBUSB_ERROR_ACCESS, 0x1234, 0x5678, 0, 1⟩, ⟨0, 0x046d, 0x5678, 0, 2⟩])).self = false ∧
    (Open LuaAPIHandle_USB.new 0x1234 0x5678
      (some [⟨LIBUSB_ERROR_ACCESS, 0x1234, 0x5678, 0, 1⟩, ⟨0, 0x046d, 0x5678, 0, 2⟩])).self.m_iError
        = LIBUSB_ERROR_NO_DEVICE ∧
    GetErrorStr (Open LuaAPIHandle_USB.new 0x1234 0x5678
      (some [⟨LIBUSB_ERROR_ACCESS, 0x1234, 0x5678, 0, 1⟩, ⟨0, 0x046d, 0x5678, 0, 2⟩])).self.m_iError
        = "No such device" ∧
    openCount (Open LuaAPIHandle_USB.new 0x1234 0x5678
      (some [⟨LIBUSB_ERROR_ACCESS, 0x1234, 0x5678, 0, 1⟩, ⟨0, 0x046d, 0x5678, 0, 2⟩])).calls = 0 :=
  Open_no_matching_device LuaAPIHandle_USB.new 0x1234 0x5678
    [⟨LIBUSB_ERROR_ACCESS, 0x1234, 0x5678, 0, 1⟩, ⟨0, 0x046d, 0x5678, 0, 2⟩] rfl (by decide)

/-- C2: with two attached devices that both carry the identifiers and both
open successfully, one call to `Open` makes two `libusb_open` calls, the second
on the later device, whose handle replaces the first. -/
theorem Open_two_matching_devices_opens_both :
    (Open LuaAPIHandle_USB.new 0x1234 0x5678
      (some [⟨0, 0x1234, 0x5678, 0, 1⟩, ⟨0, 0x1234, 0x5678, 0, 2⟩])).calls =
      [NativeCall.libusb_get_device_list,
       NativeCall.libusb_get_device_descriptor ⟨0, 0x1234, 0x5678, 0, 1⟩,
       NativeCall.libusb_open ⟨0, 0x1234, 0x5678, 0, 1⟩,
       NativeCall.libusb_get_device_descriptor ⟨0, 0x1234, 0x5678, 0, 2⟩,
       NativeCall.libusb_open ⟨0, 0x1234, 0x5678, 0, 2⟩,
       NativeCall.libusb_free_device_list] ∧
    openCount (Open LuaAPIHandle_USB.new 0x1234 0x5678
      (some [⟨0, 0x1234, 0x5678, 0, 1⟩, ⟨0, 0x1234, 0x5678, 0, 2⟩])).calls = 2 ∧
    (Open LuaAPIHandle_USB.new 0x1234 0x5678
      (some [⟨0, 0x1234, 0x5678, 0, 1⟩, ⟨0, 0x1234, 0x5678, 0, 2⟩])).self.m_pHandle = some 2 := by
  refine ⟨?_, ?_, ?_⟩ <;> decide

/-- C3: after a successful `Open` on one matching device, `Close` resets and
closes the native handle but `m_pHandle` keeps its value, so `IsOpen` is still
true after `Close`. -/
theorem Close_leaves_IsOpen_true :
    (Open LuaAPIHandle_USB.new 0x1234 0x5678 (some [⟨0, 0x1234, 0x5678, 0, 7⟩])).ret = true ∧
    (Close (Open LuaAPIHandle_USB.new 0x1234 0x5678
      (some [⟨0, 0x1234, 0x5678, 0, 7⟩])).self).calls =
      [NativeCall.libusb_reset_device 7, NativeCall.libusb_close 7] ∧
    IsOpen (Close (Open LuaAPIHandle_USB.new 0x1234 0x5678
      (some [⟨0, 0x1234, 0x5678, 0, 7⟩])).self).self = true := by
  refine ⟨?_, ?_, ?_⟩ <;> decide

theorem Close_self (s : LuaAPIHandle_USB) : (Close s).self = s := by
  unfold Close
  cases s.m_pHandle <;> rfl

theorem Open_ret_eq_IsOpen (s : LuaAPIHandle_USB) (iVendorID iProductID : Nat)
    (devs : List Device) :
    (Open s iVendorID iProductID (some devs)).ret =
      IsOpen (Open s iVendorID iProductID (some devs)).self := rfl

/-! ## Properties of `ClaimInterface` and `ReleaseInterface` -/

/-- C4: on a fresh session, releasing interface 0, which was never claimed so
that the native release answers `LIBUSB_ERROR_NOT_FOUND`, returns false. -/
theorem ReleaseInterface_never_claimed_returns_false :
    (ReleaseInterface LuaAPIHandle_USB.new 0 ⟨LIBUSB_ERROR_NOT_FOUND, 0⟩).ret = false ∧
    (ReleaseInterface LuaAPIHandle_USB.new 0 ⟨LIBUSB_ERROR_NOT_FOUND, 0⟩).self.m_iError =
      LIBUSB_ERROR_NOT_FOUND ∧
    (ReleaseInterface LuaAPIHandle_USB.new 0 ⟨LIBUSB_ERROR_NOT_FOUND, 0⟩).calls =
      [NativeCall.libusb_release_interface 0] := by
  refine ⟨?_, ?_, ?_⟩ <;> decide

theorem ReleaseInterface_ret (s : LuaAPIHandle_USB) (interface : Int) (env : ReleaseEnv) :
    (ReleaseInterface s interface env).ret = decide (env.releaseRet = LIBUSB_SUCCESS) := by
  unfold ReleaseInterface
  by_cases h : env.releaseRet = LIBUSB_SUCCESS
  · by_cases hm : toUInt8 interface ∈ s.m_DetachedInterfaces <;> simp [h, hm]
  · simp [h]

theorem ClaimInterface_detached (s : LuaAPIHandle_USB) (interface : Int) (env : ClaimEnv) :
    (ClaimInterface s interface env).self.m_DetachedInterfaces =
      if detachOccurred env = true then insert (toUInt8 interface) s.m_DetachedInterfaces
      else s.m_DetachedInterfaces := by
  unfold ClaimInterface detachOccurred
  by_cases h1 : env.kernelDriverActive = 0
  · simp [h1]
  · by_cases h2 : env.detachRet = LIBUSB_SUCCESS <;> simp [h1, h2]

theorem ClaimInterface_no_reattach (s : LuaAPIHandle_USB) (interface : Int) (env : ClaimEnv) :
    reattachCount (ClaimInterface s interface env).calls = 0 := by
  unfold ClaimInterface
  by_cases h1 : env.kernelDriverActive = 0
  · simp [h1, reattachCount]
  · by_cases h2 : env.detachRet = LIBUSB_SUCCESS <;> simp [h1, h2, reattachCount]

/-- C5, as stated, fails at two inputs.  First: on a fresh session the claim
of interface 0 detaches the driver, the native release then fails, and 0 stays
recorded while no reattach is attempted.  Second: 0 is already recorded, the
claim finds no driver bound, and the release makes a reattach attempt although
no detach occurred during the claim. -/
theorem ClaimInterface_ReleaseInterface_counterexample :
    ¬ (toUInt8 0 ∉ (ReleaseInterface (ClaimInterface LuaAPIHandle_USB.new 0 ⟨1, 0, 0⟩).self 0
          ⟨ LIBUSB_ERROR_IO, 0⟩).self.m_DetachedInterfaces ∧
       reattachCount ((ClaimInterface LuaAPIHandle_USB.new 0 ⟨1, 0, 0⟩).calls ++
          (ReleaseInterface (ClaimInterface LuaAPIHandle_USB.new 0 ⟨1, 0, 0⟩).self 0
            ⟨ LIBUSB_ERROR_IO, 0⟩).calls) =
         (if detachOccurred ⟨1, 0, 0⟩ = true then 1 else 0)) ∧
    ¬ (toUInt8 0 ∉ (ReleaseInterface (ClaimInterface
          { LuaAPIHandle_USB.new with m_DetachedInterfaces := {0} } 0 ⟨0, 0, 0⟩).self 0
          ⟨0, 0⟩).self.m_DetachedInterfaces ∧
       reattachCount ((ClaimInterface
          { LuaAPIHandle_USB.new with m_DetachedInterfaces := {0} } 0 ⟨0, 0, 0⟩).calls ++
          (ReleaseInterface (ClaimInterface
            { LuaAPIHandle_USB.new with m_DetachedInterfaces := {0} } 0 ⟨0, 0, 0⟩).self 0
            ⟨0, 0⟩).calls) =
         (if detachOccurred ⟨0, 0, 0⟩ = true then 1 else 0)) := by
  constructor <;> decide

/-- C5, amended: when the native release call reports success,
`ClaimInterface(n)` followed by `ReleaseInterface(n)` leaves the detached set
without `n`, and the pair makes exactly one reattach attempt if a detach
occurred during the claim or `n` was already recorded before it, and none
otherwise. -/
theorem ClaimInterface_ReleaseInterface_pair (s : LuaAPIHandle_USB) (n : Int)
    (ce : ClaimEnv) (re : ReleaseEnv) (hrel : re.releaseRet = LIBUSB_SUCCESS) :
    toUInt8 n ∉ (ReleaseInterface (ClaimInterface s n ce).self n re).self.m_DetachedInterfaces ∧
    reattachCount ((ClaimInterface s n ce).calls ++
        (ReleaseInterface (ClaimInterface s n ce).self n re).calls) =
      (if detachOccurred ce = true ∨ toUInt8 n ∈ s.m_DetachedInterfaces then 1 else 0) ∧
    (ReleaseInterface (ClaimInterface s n ce).self n re).ret = true := by
  have hset := ClaimInterface_detached s n ce
  have hcl := ClaimInterface_no_reattach s n ce
  have hcount : reattachCount ((ClaimInterface s n ce).calls ++
        (ReleaseInterface (ClaimInterface s n ce).self n re).calls) =
      reattachCount (ReleaseInterface (ClaimInterface s n ce).self n re).calls := by
    unfold reattachCount at hcl ⊢
    rw [List.countP_append, hcl, Nat.zero_add]
  rw [hcount]
  generalize (ClaimInterface s n ce).self = c at hset
  unfold ReleaseInterface
  by_cases hm : toUInt8 n ∈ c.m_DetachedInterfaces
  · have hor : detachOccurred ce = true ∨ toUInt8 n ∈ s.m_DetachedInterfaces := by
      by_cases hd : detachOccurred ce = true
      · exact Or.inl hd
      · rw [hset, if_neg hd] at hm
        exact Or.inr hm
    simp [hrel, hm, hor, reattachCount]
  · have hnor : ¬ (detachOccurred ce = true ∨ toUInt8 n ∈ s.m_DetachedInterfaces) := by
      rintro (hd | hs)
      · rw [hset, if_pos hd] at hm
        exact hm (Finset.mem_insert_self _ _)
      · by_cases hd : detachOccurred ce = true
        · rw [hset, if_pos hd] at hm
          exact hm (Finset.mem_insert_of_mem hs)
        · rw [hset, if_neg hd] at hm
          exact hm hs
    simp [hrel, hm, hnor, reattachCount]

/-- Instance of the amended C5: interface 3 on a fresh session, driver bound
and detached, claim and release both successful. -/
theorem ClaimInterface_ReleaseInterface_pair_witness :
    toUInt8 3 ∉ (ReleaseInterface (ClaimInterface LuaAPIHandle_USB.new 3 ⟨1, 0, 0⟩).self 3
        ⟨0, 0⟩).self.m_DetachedInterfaces ∧
    reattachCount ((ClaimInterface LuaAPIHandle_USB.new 3 ⟨1, 0, 0⟩).calls ++
        (ReleaseInterface (ClaimInterface LuaAPIHandle_USB.new 3 ⟨1, 0, 0⟩).self 3 ⟨0, 0⟩).calls) =
      (if detachOccurred ⟨1, 0, 0⟩ = true ∨ toUInt8 3 ∈ LuaAPIHandle_USB.new.m_DetachedInterfaces
        then 1 else 0) ∧
    (ReleaseInterface (ClaimInterface LuaAPIHandle_USB.new 3 ⟨1, 0, 0⟩).self 3 ⟨0, 0⟩).ret = true :=
  ClaimInterface_ReleaseInterface_pair LuaAPIHandle_USB.new 3 ⟨1, 0, 0⟩ ⟨0, 0⟩ rfl

/-- When the native release call fails, `ReleaseInterface` leaves the detached
set as it was and attempts no reattach. -/
theorem ReleaseInterface_failed (s : LuaAPIHandle_USB) (n : Int) (re : ReleaseEnv)
    (hrel : re.releaseRet ≠ LIBUSB_SUCCESS) :
    (ReleaseInterface s n re).self.m_DetachedInterfaces = s.m_DetachedInterfaces ∧
    reattachCount (ReleaseInterface s n re).calls = 0 := by
  unfold ReleaseInterface
  simp [hrel, reattachCount]

/-- C6: with a kernel driver bound to interface `n`: if the detach fails,
`ClaimInterface(n)` returns false, makes no native claim call and leaves the
detached set unchanged; if the detach succeeds, `n` (as the `uint8_t` the set
stores) is in the detached set afterwards whatever the claim call answers, and
the result is true iff the claim call reported success. -/
theorem ClaimInterface_driver_bound (s : LuaAPIHandle_USB) (n : Int) (env : ClaimEnv)
    (hbound : env.kernelDriverActive ≠ 0) :
    (env.detachRet ≠ LIBUSB_SUCCESS →
      (ClaimInterface s n env).ret = false ∧
      claimCount (ClaimInterface s n env).calls = 0 ∧
      (ClaimInterface s n env).self.m_DetachedInterfaces = s.m_DetachedInterfaces ∧
      (ClaimInterface s n env).self = s) ∧
    (env.detachRet = LIBUSB_SUCCESS →
      toUInt8 n ∈ (ClaimInterface s n env).self.m_DetachedInterfaces ∧
      claimCount (ClaimInterface s n env).calls = 1 ∧
      ((ClaimInterface s n env).ret = true ↔ env.claimRet = LIBUSB_SUCCESS)) := by
  unfold ClaimInterface
  constructor
  · intro hd
    simp [hbound, hd, claimCount]
  · intro hd
    simp [hbound, hd, claimCount]

/-- Instance of C6: driver bound to interface 2, detach successful, claim
answered `LIBUSB_ERROR_BUSY`. -/
theorem ClaimInterface_driver_bound_witness :
    ((⟨1, 0, LIBUSB_ERROR_BUSY⟩ : ClaimEnv).detachRet ≠ LIBUSB_SUCCESS →
      (ClaimInterface LuaAPIHandle_USB.new 2 ⟨1, 0, LIBUSB_ERROR_BUSY⟩).ret = false ∧
      claimCount (ClaimInterface LuaAPIHandle_USB.new 2 ⟨1, 0, LIBUSB_ERROR_BUSY⟩).calls = 0 ∧
      (ClaimInterface LuaAPIHandle_USB.new 2 ⟨1, 0, LIBUSB_ERROR_BUSY⟩).self.m_DetachedInterfaces =
        LuaAPIHandle_USB.new.m_DetachedInterfaces ∧
      (ClaimInterface LuaAPIHandle_USB.new 2 ⟨1, 0, LIBUSB_ERROR_BUSY⟩).self =
        LuaAPIHandle_USB.new) ∧
    ((⟨1, 0, LIBUSB_ERROR_BUSY⟩ : ClaimEnv).detachRet = LIBUSB_SUCCESS →
      toUInt8 2 ∈ (ClaimInterface LuaAPIHandle_USB.new 2
        ⟨1, 0, LIBUSB_ERROR_BUSY⟩).self.m_DetachedInterfaces ∧
      claimCount (ClaimInterface LuaAPIHandle_USB.new 2 ⟨1, 0, LIBUSB_ERROR_BUSY⟩).calls = 1 ∧
      ((ClaimInterface LuaAPIHandle_USB.new 2 ⟨1, 0, LIBUSB_ERROR_BUSY⟩).ret = true ↔
        (⟨1, 0, LIBUSB_ERROR_BUSY⟩ : ClaimEnv).claimRet = LIBUSB_SUCCESS)) :=
  ClaimInterface_driver_bound LuaAPIHandle_USB.new 2 ⟨1, 0, LIBUSB_ERROR_BUSY⟩ (by decide)

/-! ## Properties of `GetErrorStr` -/

/-- C7: `GetErrorStr` is a total function, and on every status code without a
`case` label it yields the one fixed placeholder string, `"(nil)"`. -/
theorem GetErrorStr_unknown_code (error : Int) (hunknown : error ∉ knownErrorCodes) :
    GetErrorStr error = "(nil)" := by
  simp only [knownErrorCodes, List.mem_cons, List.mem_singleton, List.not_mem_nil, or_false,
    not_or] at hunknown
  obtain ⟨h0, h1, h2, h3, h4, h5, h6, h7, h8, h9, h10, h11, h12, h13⟩ := hunknown
  simp only [GetErrorStr, h0, h1, h2, h3, h4, h5, h6, h7, h8, h9, h10, h11, h12, h13, if_false]

/-- Instance of C7: the status code 1 has no `case` label. -/
theorem GetErrorStr_unknown_code_witness : GetErrorStr 1 = "(nil)" :=
  GetErrorStr_unknown_code 1 (by decide)

/-- No status code with a `case` label yields the placeholder. -/
theorem GetErrorStr_known_code (error : Int) (hknown : error ∈ knownErrorCodes) :
    GetErrorStr error ≠ "(nil)" := by
  simp only [knownErrorCodes, List.mem_cons, List.mem_singleton, List.not_mem_nil, or_false]
    at hknown
  rcases hknown with h | h | h | h | h | h | h | h | h | h | h | h | h | h <;> subst h <;> decide

/-! ## Properties of the transfer methods of the binding -/

/-- C8: for an IN control transfer (high bit of the request type set, receive
buffer of 64 bytes): when the native call returns `r` with `0 < r <= 64` the
method pushes `r` and the first `r` bytes of the buffer, a string of length
`r`; when `r <= 0` it pushes `r` and nil. -/
theorem Luna_ControlTransfer_in (p : LuaAPIHandle_USB) (arg1 arg2 arg3 arg4 : Int)
    (arg5 : Option (List Nat)) (arg6 : Int) (env : TransferEnv)
    (hin : isEndpointIn (toUInt8 arg1) = true)
    (hbuf : env.data.length = CTL_TRANSFER_BUFFER_SIZE) :
    (0 < env.ret → env.ret ≤ 64 →
      ∃ r, Luna_ControlTransfer p arg1 arg2 arg3 arg4 arg5 arg6 env = some r ∧
        r.count = env.ret ∧ r.data = some (env.data.take env.ret.toNat) ∧
        ((env.data.take env.ret.toNat).length : Int) = env.ret ∧ r.self = p) ∧
    (env.ret ≤ 0 →
      ∃ r, Luna_ControlTransfer p arg1 arg2 arg3 arg4 arg5 arg6 env = some r ∧
        r.count = env.ret ∧ r.data = none) := by
  have hrun : Luna_ControlTransfer p arg1 arg2 arg3 arg4 arg5 arg6 env =
      some { count := env.ret
             data := if decide (env.ret > 0) then some (env.data.take env.ret.toNat) else none
             self := if env.ret < 0 then { p with m_iError := env.ret } else p } := by
    simp [Luna_ControlTransfer, hin]
  constructor
  · intro hpos hle
    have hnneg : ¬ env.ret < 0 := by omega
    refine ⟨_, hrun, rfl, ?_, ?_, ?_⟩
    · simp [hpos]
    · rw [List.length_take, hbuf, CTL_TRANSFER_BUFFER_SIZE]
      omega
    · simp [hnneg]
  · intro hle
    have hnpos : ¬ env.ret > 0 := by omega
    refine ⟨_, hrun, rfl, ?_⟩
    simp [hnpos]

/-- Instance of C8: request type 0x80, the device answers 10 bytes into a
buffer holding the bytes 0 to 63. -/
theorem Luna_ControlTransfer_in_witness :
    ∃ r, Luna_ControlTransfer LuaAPIHandle_USB.new 0x80 6 0x100 0 none 1000
        ⟨10, 0, List.range 64⟩ = some r ∧
      r.count = (⟨10, 0, List.range 64⟩ : TransferEnv).ret ∧
      r.data = some ((⟨10, 0, List.range 64⟩ : TransferEnv).data.take
        (⟨10, 0, List.range 64⟩ : TransferEnv).ret.toNat) ∧
      (((⟨10, 0, List.range 64⟩ : TransferEnv).data.take
        (⟨10, 0, List.range 64⟩ : TransferEnv).ret.toNat).length : Int) =
        (⟨10, 0, List.range 64⟩ : TransferEnv).ret ∧
      r.self = LuaAPIHandle_USB.new :=
  (Luna_ControlTransfer_in LuaAPIHandle_USB.new 0x80 6 0x100 0 none 1000
    ⟨10, 0, List.range 64⟩ (by decide) (by decide)).1 (by decide) (by decide)

/-- C9: an IN bulk transfer on endpoint 0x81 in which the native call reports
10 bytes pushes the count 10 and the whole 64-byte buffer, not its first 10
bytes; an IN interrupt transfer reporting 3 bytes pushes the count 3 and the
whole 8-byte buffer. -/
theorem Luna_BulkTransfer_pushes_whole_buffer :
    (Luna_BulkTransfer LuaAPIHandle_USB.new 0x81 none 1000 ⟨0, 10, List.range 64⟩).count = 10 ∧
    (Luna_BulkTransfer LuaAPIHandle_USB.new 0x81 none 1000 ⟨0, 10, List.range 64⟩).data =
      some (List.range 64) ∧
    (Luna_BulkTransfer LuaAPIHandle_USB.new 0x81 none 1000 ⟨0, 10, List.range 64⟩).data ≠
      some ((List.range 64).take 10) ∧
    (Luna_InterruptTransfer LuaAPIHandle_USB.new 0x81 none 1000 ⟨0, 3, List.range 8⟩).count = 3 ∧
    (Luna_InterruptTransfer LuaAPIHandle_USB.new 0x81 none 1000 ⟨0, 3, List.range 8⟩).data =
      some (List.range 8) ∧
    (Luna_InterruptTransfer LuaAPIHandle_USB.new 0x81 none 1000 ⟨0, 3, List.range 8⟩).data ≠
      some ((List.range 8).take 3) := by
  refine ⟨?_, ?_, ?_, ?_, ?_, ?_⟩ <;> decide

/-- For an IN bulk transfer with a 64-byte buffer the pushed count is the
reported number of bytes and the pushed string is the whole buffer. -/
theorem Luna_BulkTransfer_in (p : LuaAPIHandle_USB) (arg1 : Int) (arg2 : Option (List Nat))
    (arg3 : Int) (env : TransferEnv) (hin : isEndpointIn (toUInt8 arg1) = true)
    (hbuf : env.data.length = 64) :
    (Luna_BulkTransfer p arg1 arg2 arg3 env).count = env.transferred ∧
    (Luna_BulkTransfer p arg1 arg2 arg3 env).data = some env.data := by
  have htake : List.take 64 env.data = env.data := List.take_of_length_le (by omega)
  simp [Luna_BulkTransfer, hin, htake]

/-- For an IN interrupt transfer with an 8-byte buffer the pushed count is the
reported number of bytes and the pushed string is the whole buffer. -/
theorem Luna_InterruptTransfer_in (p : LuaAPIHandle_USB) (arg1 : Int)
    (arg2 : Option (List Nat)) (arg3 : Int) (env : TransferEnv)
    (hin : isEndpointIn (toUInt8 arg1) = true) (hbuf : env.data.length = 8) :
    (Luna_InterruptTransfer p arg1 arg2 arg3 env).count = env.transferred ∧
    (Luna_InterruptTransfer p arg1 arg2 arg3 env).data = some env.data := by
  have htake : List.take 8 env.data = env.data := List.take_of_length_le (by omega)
  simp [Luna_InterruptTransfer, hin, htake]

/-- C10: the binding class defines `BulkTransfer`, but the method table built
by its constructor has no entry for it; every other method the class defines
is registered. -/
theorem BulkTransfer_not_registered :
    "BulkTransfer" ∈ LunaLuaAPIHandle_USB_defined ∧
    "BulkTransfer" ∉ LunaLuaAPIHandle_USB_methods ∧
    (∀ m ∈ LunaLuaAPIHandle_USB_defined, m ≠ "BulkTransfer" → m ∈ LunaLuaAPIHandle_USB_methods) := by
  refine ⟨?_, ?_, ?_⟩ <;> decide

/-! ## Properties of the `ScreenInstructions` constructor -/

theorem easiestLoop_gt_iff (players : List PlayerState) (start easy : Int) :
    easiestLoop players start > easy ↔
      start > easy ∧ ∀ p ∈ players, p.enabled = true → p.m_PreferredDifficulty > easy := by
  induction players generalizing start with
  | nil => simp [easiestLoop]
  | cons q rest ih =>
    rw [easiestLoop]
    by_cases hq : q.enabled = true
    · simp only [hq, Bool.not_true, Bool.false_eq_true, if_false, List.mem_cons, forall_eq_or_imp,
        true_implies]
      rw [ih]
      constructor
      · rintro ⟨hmin, hall⟩
        exact ⟨lt_of_lt_of_le hmin (min_le_left _ _), lt_of_lt_of_le hmin (min_le_right _ _), hall⟩
      · rintro ⟨hs, hqd, hall⟩
        exact ⟨lt_min hs hqd, hall⟩
    · have hq2 : q.enabled = false := by simpa using hq
      simp only [hq2, Bool.not_false, if_true, List.mem_cons, forall_eq_or_imp,
        Bool.false_eq_true, false_implies, true_and]
      exact ih start

theorem skipped_dispatch (theme : Theme) (gs : GameState) :
    skipped (Effect.Dispatch ScreenMessage.SM_GoToNextScreen ::
      HandleScreenMessage theme gs ScreenMessage.SM_GoToNextScreen) = true := by
  cases h : gs.m_PlayMode <;> simp [HandleScreenMessage, skipped, h]

theorem skipped_constructorBody (gs : GameState) : skipped (constructorBody gs) = false := by
  simp [skipped, constructorBody]

theorem ScreenInstructions_skipped_iff_code (c : DifficultyConsts) (theme : Theme)
    (gs : GameState) :
    skipped (ScreenInstructions c theme gs) = true ↔
      (gs.m_bInstructions = false ∨
        (gs.m_PlayMode = PlayMode.PLAY_MODE_ARCADE ∧
          easiestDifficulty c gs > c.DIFFICULTY_EASY)) := by
  unfold ScreenInstructions
  by_cases hi : gs.m_bInstructions = true
  · by_cases hm : gs.m_PlayMode = PlayMode.PLAY_MODE_ARCADE
    · by_cases he : easiestDifficulty c gs > c.DIFFICULTY_EASY
      · simp [hi, hm, he, skipped_dispatch]
      · simp [hi, hm, he, skipped_constructorBody]
    · simp [hi, hm, skipped_constructorBody]
  · have hi2 : gs.m_bInstructions = false := by simpa using hi
    simp [hi2, skipped_dispatch]

/-- C11: with `DIFFICULTY_EASY` below the hardest difficulty
`NUM_DIFFICULTIES-1`, the constructor passes the screen over (dispatches
`SM_GoToNextScreen` before, and instead of, loading the menu, the sprite and
the music) iff the instructions preference is off, or the play mode is arcade
and no enabled player prefers a difficulty of easy or easier; the latter is
the test `easiestDifficulty > DIFFICULTY_EASY` of the running minimum started
at the hardest difficulty, so with no enabled player the arcade screen is
passed over; and in each play mode that has a next screen the constructor then
does nothing but set that screen. -/
theorem ScreenInstructions_skipped_iff (c : DifficultyConsts) (theme : Theme) (gs : GameState)
    (hhard : c.DIFFICULTY_EASY < c.NUM_DIFFICULTIES - 1) :
    (skipped (ScreenInstructions c theme gs) = true ↔
      (gs.m_bInstructions = false ∨
        (gs.m_PlayMode = PlayMode.PLAY_MODE_ARCADE ∧
          ∀ p ∈ gs.players, p.enabled = true → ¬ p.m_PreferredDifficulty ≤ c.DIFFICULTY_EASY))) ∧
    ((∀ p ∈ gs.players, p.enabled = true → ¬ p.m_PreferredDifficulty ≤ c.DIFFICULTY_EASY) ↔
      easiestDifficulty c gs > c.DIFFICULTY_EASY) ∧
    ((∀ p ∈ gs.players, p.enabled = false) → gs.m_PlayMode = PlayMode.PLAY_MODE_ARCADE →
      skipped (ScreenInstructions c theme gs) = true) ∧
    (skipped (ScreenInstructions c theme gs) = true → hasNextScreen gs.m_PlayMode = true →
      ∃ name, ScreenInstructions c theme gs =
        [Effect.Dispatch ScreenMessage.SM_GoToNextScreen, Effect.SetNewScreen name]) := by
  have hcode := ScreenInstructions_skipped_iff_code c theme gs
  have hloop : (∀ p ∈ gs.players, p.enabled = true →
      ¬ p.m_PreferredDifficulty ≤ c.DIFFICULTY_EASY) ↔
      easiestDifficulty c gs > c.DIFFICULTY_EASY := by
    unfold easiestDifficulty
    rw [easiestLoop_gt_iff]
    constructor
    · intro h
      exact ⟨hhard, fun p hp he => lt_of_not_le (h p hp he)⟩
    · rintro ⟨_, h⟩ p hp he
      exact not_le_of_lt (h p hp he)
  refine ⟨?_, hloop, ?_, ?_⟩
  · rw [hcode, hloop]
  · intro hnone hm
    rw [hcode]
    refine Or.inr ⟨hm, hloop.mp ?_⟩
    intro p hp he
    rw [hnone p hp] at he
    exact absurd he (by decide)
  · intro hs hn
    have hdisp : ScreenInstructions c theme gs =
        Effect.Dispatch ScreenMessage.SM_GoToNextScreen ::
          HandleScreenMessage theme gs ScreenMessage.SM_GoToNextScreen := by
      unfold ScreenInstructions at hs ⊢
      by_cases hi : gs.m_bInstructions = true
      · by_cases hm : gs.m_PlayMode = PlayMode.PLAY_MODE_ARCADE
        · by_cases he : easiestDifficulty c gs > c.DIFFICULTY_EASY
          · simp [hi, hm, he]
          · simp [hi, hm, he, skipped_constructorBody] at hs
        · simp [hi, hm, skipped_constructorBody] at hs
      · have hi2 : gs.m_bInstructions = false := by simpa using hi
        simp [hi2]
    rw [hdisp]
    cases hpm : gs.m_PlayMode <;> simp [HandleScreenMessage, hasNextScreen, hpm] at hn ⊢

/-- Instance of C11: five difficulties with easy at 1, arcade mode, player 1
enabled on difficulty 3, player 2 not enabled on difficulty 0. -/
theorem ScreenInstructions_skipped_iff_witness :
    skipped (ScreenInstructions ⟨5, 1⟩ ⟨"ScreenSelectMusic", "ScreenSelectCourse", "ScreenBattle"⟩
      ⟨true, PlayMode.PLAY_MODE_ARCADE, [⟨true, 3⟩, ⟨false, 0⟩]⟩) = true ∧
    ScreenInstructions ⟨5, 1⟩ ⟨"ScreenSelectMusic", "ScreenSelectCourse", "ScreenBattle"⟩
      ⟨true, PlayMode.PLAY_MODE_ARCADE, [⟨true, 3⟩, ⟨false, 0⟩]⟩ =
      [Effect.Dispatch ScreenMessage.SM_GoToNextScreen, Effect.SetNewScreen "ScreenSelectMusic"] :=
  ⟨(ScreenInstructions_skipped_iff ⟨5, 1⟩
      ⟨"ScreenSelectMusic", "ScreenSelectCourse", "ScreenBattle"⟩
      ⟨true, PlayMode.PLAY_MODE_ARCADE, [⟨true, 3⟩, ⟨false, 0⟩]⟩ (by decide)).1.mpr
      (Or.inr ⟨rfl, by decide⟩),
   by decide⟩

end Stepmania
